import Mathlib

/-!
Verification development for `app/scraper.py` (cinebot): a scraper that
extracts screening records (venue, film, date, time) from the Prince
Charles Cinema listings page.

The Python source is shallowly embedded below:
* `parse_pcc_date` models the function of the same name, including the
  `re.sub`-based ordinal stripping, `datetime.strptime` with format
  `%A %d %B %Y` (CPython `_strptime` regex semantics), and the 60-day
  "try next year" policy.  The module-level constant `CURRENT_YEAR` and
  the `datetime.now().date()` call are modelled by a single reference
  date parameter `ref` with `CURRENT_YEAR = ref.year` (one run at one
  reference instant, as the spec's "reference instant" prescribes).
* `parse_pcc_time` models the function of the same name: `str.lower`,
  `strptime` with format `%I:%M %p`, re-rendered as `%H:%M`.
* `scrape_pcc` is modelled by `scrape_pcc_run` over a structured document
  (BeautifulSoup fragments reduced to the fields the code reads).
  Python exceptions that the code lets escape are modelled by `PyOutcome.exn`;
  the caught ones are modelled by `Option`-valued parsers being total.
-/

namespace Cinebot

/-! ## Calendar arithmetic (proleptic Gregorian, as Python `datetime.date`) -/

/-- A calendar date, as Python `datetime.date` (proleptic Gregorian). -/
structure Date where
  year : Nat
  month : Nat
  day : Nat
  deriving DecidableEq, Repr

/-- Gregorian leap-year test, as `calendar`/`datetime`. -/
def isLeap (y : Nat) : Bool :=
  y % 4 = 0 && (y % 100 ≠ 0 || y % 400 = 0)

/-- Days in month `m` (1-12) of year `y`, as `datetime`. -/
def daysInMonth (y : Nat) (m : Nat) : Nat :=
  if m = 2 then (if isLeap y then 29 else 28)
  else if m = 4 || m = 6 || m = 9 || m = 11 then 30
  else 31

/-- Days in all years before year `y` (proleptic Gregorian, year 1 first). -/
def daysBeforeYear (y : Nat) : Nat :=
  365 * (y - 1) + (y - 1) / 4 + (y - 1) / 400 - (y - 1) / 100

/-- Days in year `y` strictly before month `m`. -/
def daysBeforeMonth (y : Nat) (m : Nat) : Nat :=
  (List.range (m - 1)).foldl (fun acc i => acc + daysInMonth y (i + 1)) 0

/-- Rata-die ordinal of a date: `0001-01-01` is day 1.  This is exactly
Python's `date.toordinal()`, so differences of `daysOf` model
`(d1 - d2).days`. -/
def daysOf (d : Date) : Nat :=
  daysBeforeYear d.year + daysBeforeMonth d.year d.month + d.day

/-- Weekday of a date with Monday = 0 .. Sunday = 6, exactly Python's
`date.weekday()` (0001-01-01 was a Monday). -/
def weekdayOf (d : Date) : Nat :=
  (daysOf d + 6) % 7

/-! ## Character/string utilities -/

/-- Whitespace, as both Python `str.strip()` (default) and the regex class
`\s` treat the ASCII whitespace characters relevant here. -/
def isWsC (c : Char) : Bool :=
  c = ' ' || c = '\t' || c = '\n' || c = '\r'

/-- Numeric value of a decimal digit character. -/
def dval (c : Char) : Nat := c.toNat - 48

/-- The decimal digit character for `n ≤ 9`. -/
def digitChar (n : Nat) : Char := Char.ofNat (48 + n)

/-- Decimal rendering of `n ≤ 99` without padding (enough for `f"{day}"`
style interpolation of the small numbers appearing here). -/
def digitsOf (n : Nat) : List Char :=
  if n < 10 then [digitChar n] else [digitChar (n / 10), digitChar (n % 10)]

/-- Two-digit zero-padded decimal rendering of `n ≤ 99`, as `strftime`'s
`%H`/`%M`. -/
def pad2 (n : Nat) : List Char :=
  [digitChar (n / 10), digitChar (n % 10)]

/-- Python `str.strip()`: drop leading and trailing whitespace. -/
def pyStrip (l : List Char) : List Char :=
  (((l.dropWhile isWsC).reverse.dropWhile isWsC)).reverse

/-- `pyStrip` as a `String → String` function. -/
def pyStripS (s : String) : String :=
  String.mk (pyStrip s.data)

/-! ## Ordinal suffix stripping: `re.sub(r'(\d+)(st|nd|rd|th)', r'\1', s)`

The pattern's suffix alternatives all start with a letter, so a match can
only remove `st`/`nd`/`rd`/`th` standing immediately after a maximal digit
run; scanning then resumes after the removed suffix.  This is captured by a
single left-to-right pass carrying one flag: "the previous character kept
was a digit". -/

/-- Is `c1 c2` one of the ordinal suffixes `st`, `nd`, `rd`, `th`
(case-sensitive, as the Python pattern is compiled without `IGNORECASE`)? -/
def isSufPair (c1 c2 : Char) : Bool :=
  if c1 = 's' then c2 = 't'
  else if c1 = 'n' then c2 = 'd'
  else if c1 = 'r' then c2 = 'd'
  else if c1 = 't' then c2 = 'h'
  else false

/-- One pass of the ordinal-suffix removal; `flag` records whether the
previously kept character was a digit. -/
def stripAux : Bool → List Char → List Char
  | _, [] => []
  | _, [c1] => [c1]
  | flag, c1 :: c2 :: rest' =>
    if flag && isSufPair c1 c2 then stripAux false rest'
    else c1 :: stripAux c1.isDigit (c2 :: rest')

/-- `re.sub(r'(\d+)(st|nd|rd|th)', r'\1', s)` from `parse_pcc_date`. -/
def stripOrdinals (l : List Char) : List Char :=
  stripAux false l

/-! ## `strptime` date parsing: format `%A %d %B %Y`

CPython's `_strptime` compiles the format to a regex (`IGNORECASE`):
weekday full names for `%A`, `(3[01]|[12]\d|0[1-9]|[1-9])` for `%d`,
month full names for `%B`, `\d\d\d\d` for `%Y`, each space becoming `\s+`,
anchored at both ends.  The `%A` value must be a valid weekday name but is
not cross-checked against the computed date.  The code parses
`f"{cleaned} {year}"`, so the year component is modelled as a separate
`Nat` argument: the appended ` {year}` part matches `\s+\d\d\d\d` exactly
when `1000 ≤ year ≤ 9999`, and the rest of the string has to match
`%A %d %B` to its end (a non-empty leftover can never complete
`\s+\d\d\d\d` against the appended text, since the cleaned string is
stripped of trailing whitespace). -/

/-- Case-insensitive literal match of `lit` as a prefix of `cs`, returning
the rest. -/
def matchLit : List Char → List Char → Option (List Char)
  | [], cs => some cs
  | _ :: _, [] => none
  | c :: lit', c' :: cs' => if c'.toLower = c then matchLit lit' cs' else none

/-- Match one name of `names` (lower-case literals) case-insensitively as a
prefix, returning its index and the rest.  No name in the lists used here is
a prefix of another, so alternation order is irrelevant. -/
def matchName : List (List Char) → List Char → Option (Nat × List Char)
  | [], _ => none
  | n :: ns, cs =>
    match matchLit n cs with
    | some rest => some (0, rest)
    | none =>
      match matchName ns cs with
      | some (i, rest) => some (i + 1, rest)
      | none => none

/-- The English weekday full names, Monday first (so the index agrees with
Python's `date.weekday()` convention). -/
def weekdayNames : List (List Char) :=
  [['m','o','n','d','a','y'], ['t','u','e','s','d','a','y'],
   ['w','e','d','n','e','s','d','a','y'], ['t','h','u','r','s','d','a','y'],
   ['f','r','i','d','a','y'], ['s','a','t','u','r','d','a','y'],
   ['s','u','n','d','a','y']]

/-- The English month full names, January first. -/
def monthNames : List (List Char) :=
  [['j','a','n','u','a','r','y'], ['f','e','b','r','u','a','r','y'],
   ['m','a','r','c','h'], ['a','p','r','i','l'], ['m','a','y'],
   ['j','u','n','e'], ['j','u','l','y'], ['a','u','g','u','s','t'],
   ['s','e','p','t','e','m','b','e','r'], ['o','c','t','o','b','e','r'],
   ['n','o','v','e','m','b','e','r'], ['d','e','c','e','m','b','e','r']]

/-- `\s+`: require at least one whitespace character and consume the run. -/
def wsPlus : List Char → Option (List Char)
  | [] => none
  | c :: rest => if isWsC c then some (rest.dropWhile isWsC) else none

/-- `(3[01]|[12]\d|0[1-9]|[1-9])\s+` with the regex engine's backtracking
resolved: when two digits stand at the front, the one-digit fallback would
place `\s+` on the second digit and fail, so a two-digit day must itself be
in range and be followed by whitespace. -/
def parseDayWs (cs : List Char) : Option (Nat × List Char) :=
  match cs with
  | [] => none
  | [_] => none
  | c1 :: c2 :: rest =>
    if c1.isDigit && c2.isDigit then
      let v := 10 * dval c1 + dval c2
      if 1 ≤ v && v ≤ 31 then
        match wsPlus rest with
        | some rest' => some (v, rest')
        | none => none
      else none
    else if c1.isDigit then
      if 1 ≤ dval c1 then
        match wsPlus (c2 :: rest) with
        | some rest' => some (dval c1, rest')
        | none => none
      else none
    else none

/-- Parse `%A %d %B` against the whole of `cs`, returning `(day, month)`;
the weekday name is required but its value is discarded, exactly as
`_strptime` ignores `%A` when year, month and day are all present. -/
def strptimeDateCore (cs : List Char) : Option (Nat × Nat) :=
  match matchName weekdayNames cs with
  | none => none
  | some (_, r1) =>
    match wsPlus r1 with
    | none => none
    | some r2 =>
      match parseDayWs r2 with
      | none => none
      | some (d, r3) =>
        match matchName monthNames r3 with
        | none => none
        | some (mIdx, r4) => if r4 = [] then some (d, mIdx + 1) else none

/-- `datetime.strptime(f"{cs} {y}", '%A %d %B %Y').date()` as an `Option`:
`none` models the `ValueError` path (bad text, 4-digit-year regex failure,
or `day out of range for month`). -/
def strptimeDate (cs : List Char) (y : Nat) : Option Date :=
  match strptimeDateCore cs with
  | none => none
  | some (d, m) =>
    if 1000 ≤ y && y ≤ 9999 && d ≤ daysInMonth y m then some (Date.mk y m d)
    else none

/-- `parse_pcc_date` from `app/scraper.py`.  `ref` models both
`datetime.now().date()` and `CURRENT_YEAR = ref.year`.  The `except`
handlers that turn any `ValueError` into `None` are modelled by the
`Option` plumbing; note that a failing first parse returns `None` without
attempting `CURRENT_YEAR + 1`, and that a successful first parse that is
more than 60 days in the past re-parses with the next year appended,
returning whatever that second parse yields. -/
def parse_pcc_date (ref : Date) (s : String) : Option Date :=
  if s.data = [] then none
  else
    let cleaned := stripOrdinals (pyStrip s.data)
    match strptimeDate cleaned ref.year with
    | none => none
    | some dt =>
      if (daysOf ref : Int) - (daysOf dt : Int) > 60 then
        strptimeDate cleaned (ref.year + 1)
      else some dt

/-! ## `strptime` time parsing: format `%I:%M %p`

Regex pieces: `(1[0-2]|0[1-9]|[1-9])` for `%I`, literal `:`,
`([0-5]\d|\d)` for `%M`, `\s+`, `(am|pm)` for `%p`, anchored at both ends.
The code lower-cases the input first. -/

/-- `(1[0-2]|0[1-9]|[1-9]):` with backtracking resolved: a two-digit hour
must be in the regex's set and be followed by `:` (the one-digit fallback
would demand `:` on the second digit, which is a digit). -/
def parseHourColon (cs : List Char) : Option (Nat × List Char) :=
  match cs with
  | [] => none
  | [_] => none
  | c1 :: c2 :: rest =>
    if c1.isDigit && c2.isDigit then
      let v := 10 * dval c1 + dval c2
      if (10 ≤ v && v ≤ 12) || (c1 = '0' && 1 ≤ v && v ≤ 9) then
        match rest with
        | ':' :: rest' => some (v, rest')
        | _ => none
      else none
    else if c1.isDigit then
      if 1 ≤ dval c1 then
        match c2 :: rest with
        | ':' :: rest' => some (dval c1, rest')
        | _ => none
      else none
    else none

/-- `([0-5]\d|\d)\s+` with backtracking resolved, as for the day. -/
def parseMinWs (cs : List Char) : Option (Nat × List Char) :=
  match cs with
  | [] => none
  | [_] => none
  | c1 :: c2 :: rest =>
    if c1.isDigit && c2.isDigit then
      if dval c1 ≤ 5 then
        match wsPlus rest with
        | some rest' => some (10 * dval c1 + dval c2, rest')
        | none => none
      else none
    else if c1.isDigit then
      match wsPlus (c2 :: rest) with
      | some rest' => some (dval c1, rest')
      | none => none
    else none

/-- `(am|pm)` at the very end of the (already lower-cased) input; returns
whether the meridiem is `pm`. -/
def parseMeridiem : List Char → Option Bool
  | 'a' :: 'm' :: rest => if rest = [] then some false else none
  | 'p' :: 'm' :: rest => if rest = [] then some true else none
  | _ => none

/-- The 12-hour to 24-hour conversion `_strptime` performs for `%I`+`%p`. -/
def to24 (h : Nat) (pm : Bool) : Nat :=
  if pm then (if h = 12 then 12 else h + 12)
  else (if h = 12 then 0 else h)

/-- `parse_pcc_time` from `app/scraper.py`: empty check, `str.lower`,
`strptime '%I:%M %p'`, then `strftime '%H:%M'`.  The `except` handlers are
modelled by totality. -/
def parse_pcc_time (s : String) : Option String :=
  match s.data with
  | [] => none
  | c :: cs =>
    let low := (c :: cs).map Char.toLower
    match parseHourColon low with
    | none => none
    | some (h, r1) =>
      match parseMinWs r1 with
      | none => none
      | some (mi, r2) =>
        match parseMeridiem r2 with
        | none => none
        | some pm => some (String.mk (pad2 (to24 h pm) ++ ':' :: pad2 mi))

/-! ## The extractor: `scrape_pcc`

The BeautifulSoup document is reduced to the fields the code reads:
each candidate `div` becomes a `FilmContainer` carrying its class list, the
text of its `a.liveeventtitle` anchor (if any), and the ordered children of
its `ul.performance-list-items` (if any).  A child of the performance list
is either a non-`Tag` node (skipped by the `isinstance` check) or a tag
with its name, class list, text content and the text of a contained
`span.time` (if any). -/

/-- `VENUE` from `app/scraper.py`. -/
def VENUE : String := "Prince Charles Cinema"

/-- One emitted screening dict `{'Venue', 'Film', 'Date', 'Time'}`; the
`Date` value `str(current_date)` is modelled by the `Date` itself. -/
structure Screening where
  venue : String
  film : String
  date : Date
  time : String
  deriving DecidableEq, Repr

/-- A child of the performance list. -/
inductive Node where
  /-- A `NavigableString` or other non-`Tag` child: fails `isinstance(child, Tag)`. -/
  | textNode (s : String)
  /-- A tag child with its name, class list, `.text` content, and the `.text`
  of a contained `span` with class `time` when one exists. -/
  | tag (name : String) (classes : List String) (content : String)
        (timeSpan : Option String)
  deriving DecidableEq, Repr

/-- One `div` candidate for a film entry. -/
structure FilmContainer where
  /-- The tag's class list (the `find_all` lambda filters on it). -/
  classes : List String
  /-- `.text` of `container.find('a', class_='liveeventtitle')`, if found. -/
  titleAnchor : Option String
  /-- Children of `container.find('ul', class_='performance-list-items')`, if found. -/
  perfList : Option (List Node)
  deriving DecidableEq, Repr

/-- The `find_all` filter: `c_list and 'jacro-event' in c_list and
'movie-tabs' in c_list and 'row' in c_list`. -/
def hasMarkers (c : FilmContainer) : Bool :=
  c.classes.contains "jacro-event" && c.classes.contains "movie-tabs" &&
    c.classes.contains "row"

/-- `film_title = title_anchor.text.strip() if title_anchor else None`
followed by the falsiness test `if not film_title` (`None` or empty). -/
def effTitle (c : FilmContainer) : Option String :=
  match c.titleAnchor with
  | none => none
  | some t =>
    match pyStrip t.data with
    | [] => none
    | l => some (String.mk l)

/-- The inner `for child in perf_list.children` loop: a linear scan
carrying `current_date` (`none` is Python's `None`), appending screenings
in order.  A heading `div` unconditionally overwrites `current_date` with
the parse result — also with `None` when parsing fails. -/
def stepChildren (ref : Date) (film : String) :
    List Node → Option Date → List Screening → List Screening
  | [], _, acc => acc
  | Node.textNode _ :: rest, st, acc => stepChildren ref film rest st acc
  | Node.tag name classes content ts :: rest, st, acc =>
    if name = "div" ∧ "heading" ∈ classes then
      stepChildren ref film rest (parse_pcc_date ref (pyStripS content)) acc
    else if name = "li" then
      match st with
      | none => stepChildren ref film rest none acc
      | some dt =>
        match ts with
        | none => stepChildren ref film rest (some dt) acc
        | some tstr =>
          match parse_pcc_time (pyStripS tstr) with
          | none => stepChildren ref film rest (some dt) acc
          | some t24 =>
            stepChildren ref film rest (some dt)
              (acc ++ [Screening.mk VENUE film dt t24])
    else stepChildren ref film rest st acc

/-- Log levels of the `logging` calls the model keeps. -/
inductive LogLevel where
  | debug | info | warning | error
  deriving DecidableEq, Repr

/-- A log entry: level and message. -/
abbrev LogEntry := LogLevel × String

/-- Per-film outcome: screenings emitted, processed/skipped increments and
log entries, mirroring the body of the `for container in film_containers`
loop. -/
structure FilmAcc where
  screenings : List Screening
  processed : Nat
  skipped : Nat
  logs : List LogEntry
  deriving DecidableEq, Repr

/-- One iteration of the container loop. -/
def processFilm (ref : Date) (c : FilmContainer) : FilmAcc :=
  match effTitle c with
  | none =>
    FilmAcc.mk [] 0 1 [(LogLevel.warning, VENUE ++ ": Skipping container - no film title.")]
  | some title =>
    match c.perfList with
    | none =>
      FilmAcc.mk [] 0 1
        [(LogLevel.debug, VENUE ++ ": No screenings list found for '" ++ title ++ "'.")]
    | some children =>
      let scr := stepChildren ref title children none []
      FilmAcc.mk scr 1 0
        (if scr.length = 0 then
          [(LogLevel.info, VENUE ++ ": Processed '" ++ title ++ "', but no valid screenings extracted.")]
        else [])

/-- The whole container loop; each iteration appends its screenings and
log entries and adds its counter increments. -/
def processContainers (ref : Date) : List FilmContainer → FilmAcc
  | [] => FilmAcc.mk [] 0 0 []
  | c :: rest =>
    let f := processFilm ref c
    let r := processContainers ref rest
    FilmAcc.mk (f.screenings ++ r.screenings) (f.processed + r.processed)
      (f.skipped + r.skipped) (f.logs ++ r.logs)

/-- Outcome of the document fetch: `requests.get` + `raise_for_status`
either yield a parsed document or raise a `requests.exceptions.RequestException`. -/
inductive FetchOutcome where
  | ok (doc : List FilmContainer)
  | networkError
  deriving DecidableEq, Repr

/-- Result of a Python call: a returned value, or an exception (by class
name) escaping the function. -/
inductive PyOutcome (α : Type) where
  | ok (a : α)
  | exn (name : String)
  deriving DecidableEq, Repr

/-- Outcome of a whole `scrape_pcc()` run: the log entries emitted and the
returned value or escaped exception. -/
structure RunResult where
  logs : List LogEntry
  outcome : PyOutcome (List Screening)
  deriving DecidableEq, Repr

/-- The final `logging.info(f"... {processed_count} processed, {skipped_count}
skipped ...")` at the end of `scrape_pcc`, which runs after the `try`/`except`
blocks.  `processed_count` and `skipped_count` are locals first assigned
*inside* the `try`, after the fetch: on paths where they were never
assigned, evaluating the f-string raises `UnboundLocalError` (a subclass of
`NameError`), which no handler catches. -/
def finishLine (processed skipped : Option Nat) (screenings : List Screening) :
    List LogEntry × PyOutcome (List Screening) :=
  match processed, skipped with
  | some p, some sk =>
    ([(LogLevel.info,
        VENUE ++ ": Finished. " ++ toString p ++ " processed, " ++ toString sk ++
          " skipped. " ++ toString screenings.length ++ " screenings extracted.")],
      PyOutcome.ok screenings)
  | _, _ => ([], PyOutcome.exn "UnboundLocalError")

/-- `scrape_pcc()` from `app/scraper.py`, for one run at reference instant
`ref` with fetch outcome `fetch`.
* On a `RequestException`, the handler logs `NETWORK ERROR` and falls
  through to the final summary log, whose f-string reads the unassigned
  counters (`finishLine none none`).
* With a document but no container matching all three class markers, the
  code logs at error level and returns the empty list from inside the
  `try`, skipping the final summary line.
* Otherwise every matching container is processed in order and the final
  summary line runs with both counters assigned. -/
def scrape_pcc_run (ref : Date) (fetch : FetchOutcome) : RunResult :=
  match fetch with
  | FetchOutcome.networkError =>
    let fin := finishLine none none []
    RunResult.mk ((LogLevel.error, VENUE ++ ": NETWORK ERROR") :: fin.1) fin.2
  | FetchOutcome.ok doc =>
    let containers := doc.filter hasMarkers
    if containers.isEmpty then
      RunResult.mk
        [(LogLevel.error, VENUE ++ ": Could not find film containers. Check website structure.")]
        (PyOutcome.ok [])
    else
      let acc := processContainers ref containers
      let fin := finishLine (some acc.processed) (some acc.skipped) acc.screenings
      RunResult.mk
        ((LogLevel.info,
            VENUE ++ ": Found " ++ toString containers.length ++ " potential film entries.")
          :: acc.logs ++ fin.1)
        fin.2

/-! ## Spec-side input constructors

These build the input texts the spec's claims quantify over: date headings
`"<Weekday> <Day><ordinal> <Month>"` and times `"<H>:<MM> <am|pm>"`.
They are written from the spec's wording, for stating the claims. -/

/-- Capitalised weekday names as they appear on the page, Monday first
(index aligned with `weekdayOf`). -/
def wkChars : Fin 7 → List Char
  | 0 => ['M','o','n','d','a','y']
  | 1 => ['T','u','e','s','d','a','y']
  | 2 => ['W','e','d','n','e','s','d','a','y']
  | 3 => ['T','h','u','r','s','d','a','y']
  | 4 => ['F','r','i','d','a','y']
  | 5 => ['S','a','t','u','r','d','a','y']
  | 6 => ['S','u','n','d','a','y']

/-- Capitalised month names, January first. -/
def monChars : Fin 12 → List Char
  | 0 => ['J','a','n','u','a','r','y']
  | 1 => ['F','e','b','r','u','a','r','y']
  | 2 => ['M','a','r','c','h']
  | 3 => ['A','p','r','i','l']
  | 4 => ['M','a','y']
  | 5 => ['J','u','n','e']
  | 6 => ['J','u','l','y']
  | 7 => ['A','u','g','u','s','t']
  | 8 => ['S','e','p','t','e','m','b','e','r']
  | 9 => ['O','c','t','o','b','e','r']
  | 10 => ['N','o','v','e','m','b','e','r']
  | 11 => ['D','e','c','e','m','b','e','r']

/-- The four ordinal suffixes. -/
def sufChars : Fin 4 → List Char
  | 0 => ['s','t']
  | 1 => ['n','d']
  | 2 => ['r','d']
  | 3 => ['t','h']

/-- The heading text `"<Weekday> <Day><ordinal> <Month>"`. -/
def mkDateChars (w : Fin 7) (d : Nat) (sf : Fin 4) (m : Fin 12) : List Char :=
  wkChars w ++ ' ' :: (digitsOf d ++ (sufChars sf ++ ' ' :: monChars m))

/-- `mkDateChars` as a `String`. -/
def mkStr (w : Fin 7) (d : Nat) (sf : Fin 4) (m : Fin 12) : String :=
  String.mk (mkDateChars w d sf m)

/-- The four spellings of the meridiem the claim's "case-insensitive"
covers. -/
def apChars : Fin 4 → List Char
  | 0 => ['a','m']
  | 1 => ['p','m']
  | 2 => ['A','M']
  | 3 => ['P','M']

/-- Whether the meridiem spelling denotes pm. -/
def apIsPM (ap : Fin 4) : Bool := ap.val % 2 = 1

/-- The time text `"<H>:<MM> <am|pm>"` with unpadded hour and zero-padded
minute. -/
def mkTime (h mi : Nat) (ap : Fin 4) : String :=
  String.mk (digitsOf h ++ ':' :: (pad2 mi ++ ' ' :: apChars ap))

/-- The 24-hour rendering the claim asks for: hour `h % 12` plus 12 for pm,
zero-padded.  (Stated independently of `to24`, which follows `_strptime`'s
branching.) -/
def expectedTime (h mi : Nat) (pm : Bool) : String :=
  String.mk (pad2 (if pm then h % 12 + 12 else h % 12) ++ ':' :: pad2 mi)

/-! ## Helper lemmas about the date pipeline on well-formed heading texts -/

/-- `dropWhile` keeps a list whose head is not whitespace. -/
lemma dropWhile_cons_of_neg (c : Char) (l : List Char) (h : isWsC c = false) :
    (c :: l).dropWhile isWsC = c :: l := by
  simp [List.dropWhile, h]

/-- `str.strip()` is the identity on a string with non-whitespace ends. -/
lemma pyStrip_id (l : List Char)
    (h1 : (l.head?.all fun c => !isWsC c) = true)
    (h2 : (l.getLast?.all fun c => !isWsC c) = true) :
    pyStrip l = l := by
  have front : l.dropWhile isWsC = l := by
    cases l with
    | nil => rfl
    | cons c t =>
      simp only [List.head?_cons, Option.all_some, Bool.not_eq_true'] at h1
      exact dropWhile_cons_of_neg c t h1
  have back : l.reverse.dropWhile isWsC = l.reverse := by
    cases hr : l.reverse with
    | nil => rfl
    | cons c t =>
      have hc : (l.reverse.head?.all fun c => !isWsC c) = true := by
        rw [List.head?_eq_getLast?_reverse, List.reverse_reverse]
        exact h2
      rw [hr] at hc
      simp only [List.head?_cons, Option.all_some, Bool.not_eq_true'] at hc
      exact dropWhile_cons_of_neg c t hc
  unfold pyStrip
  rw [front, back, List.reverse_reverse]

/-- The ordinal-suffix pass copies a digit-free prefix unchanged (no window
over such a prefix can fire, since firing needs the flag set by a kept
digit). -/
lemma stripAux_nodigit :
    ∀ (l rest : List Char), (∀ c ∈ l, c.isDigit = false) →
      stripAux false (l ++ rest) = l ++ stripAux false rest
  | [], _, _ => rfl
  | c :: l, rest, h => by
    have hc : c.isDigit = false := h c (List.mem_cons_self c l)
    have hl : ∀ c' ∈ l, c'.isDigit = false := fun c' hm => h c' (List.mem_cons_of_mem c hm)
    cases hx : l ++ rest with
    | nil =>
      rcases List.append_eq_nil.mp hx with ⟨hln, hrn⟩
      subst hln hrn
      rfl
    | cons x xs =>
      show stripAux false (c :: (l ++ rest)) = c :: (l ++ stripAux false rest)
      rw [hx]
      show (if false && isSufPair c x then stripAux false xs
            else c :: stripAux c.isDigit (x :: xs)) = c :: (l ++ stripAux false rest)
      rw [Bool.false_and, if_neg (by simp), hc, ← hx, stripAux_nodigit l rest hl]

/-- `\s+` on a string starting with a space. -/
lemma wsPlus_space (rest : List Char) :
    wsPlus (' ' :: rest) = some (rest.dropWhile isWsC) := rfl

/-- The weekday-name alternation matches each capitalised weekday name
(and only it) at the front, leaving the rest. -/
lemma matchWeekday (w : Fin 7) :
    ∀ rest, matchName weekdayNames (wkChars w ++ rest) = some (w.val, rest) := by
  fin_cases w <;> intro rest <;> rfl

/-- Facts about the `"<Day><ordinal> <Month>"` tail, for every day value
1-31, suffix and month: the ordinal pass deletes exactly the suffix, the
result starts with a non-whitespace digit, the `%d`-plus-whitespace parser
reads back the day, and the month-name alternation matches the month. -/
lemma tailFacts :
    ∀ dd : Fin 31, ∀ sf : Fin 4, ∀ m : Fin 12,
      stripAux false (digitsOf (dd.val + 1) ++ (sufChars sf ++ ' ' :: monChars m)) =
        digitsOf (dd.val + 1) ++ ' ' :: monChars m ∧
      (digitsOf (dd.val + 1) ++ ' ' :: monChars m).dropWhile isWsC =
        digitsOf (dd.val + 1) ++ ' ' :: monChars m ∧
      parseDayWs (digitsOf (dd.val + 1) ++ ' ' :: monChars m) =
        some (dd.val + 1, monChars m) ∧
      matchName monthNames (monChars m) = some (m.val, []) := by decide

/-- Weekday names are non-empty, digit-free, and start with a
non-whitespace character. -/
lemma wkFacts :
    ∀ w : Fin 7, wkChars w ≠ [] ∧ (∀ c ∈ wkChars w, c.isDigit = false) ∧
      ((wkChars w).head?.all fun c => !isWsC c) = true := by decide

/-- A space followed by a month name ends in a non-whitespace letter. -/
lemma monLast :
    ∀ m : Fin 12, ((' ' :: monChars m).getLast?.all fun c => !isWsC c) = true := by
  decide

/-- Heading texts built by `mkDateChars` are already stripped. -/
lemma pyStrip_mkDateChars (w : Fin 7) (d : Nat) (sf : Fin 4) (m : Fin 12) :
    pyStrip (mkDateChars w d sf m) = mkDateChars w d sf m := by
  apply pyStrip_id
  · obtain ⟨hne, -, hhd⟩ := wkFacts w
    unfold mkDateChars
    cases hwk : wkChars w with
    | nil => exact absurd hwk hne
    | cons c t =>
      rw [hwk] at hhd
      simpa using hhd
  · have hshape : mkDateChars w d sf m =
        (wkChars w ++ ' ' :: (digitsOf d ++ sufChars sf)) ++ ' ' :: monChars m := by
      simp [mkDateChars]
    rw [hshape, List.getLast?_append_cons]
    exact monLast m


/-- On a well-formed heading text the cleaning pipeline deletes exactly the
ordinal suffix, and the `%A %d %B` regex reads back the day and month. -/
lemma dateCore (w : Fin 7) (dd : Fin 31) (sf : Fin 4) (m : Fin 12) :
    stripOrdinals (pyStrip (mkDateChars w (dd.val + 1) sf m)) =
      wkChars w ++ ' ' :: (digitsOf (dd.val + 1) ++ ' ' :: monChars m) ∧
    strptimeDateCore (wkChars w ++ ' ' :: (digitsOf (dd.val + 1) ++ ' ' :: monChars m)) =
      some (dd.val + 1, m.val + 1) := by
  obtain ⟨hwne, hwnd, hwhd⟩ := wkFacts w
  obtain ⟨hstrip, hdw, hday, hmon⟩ := tailFacts dd sf m
  constructor
  · rw [pyStrip_mkDateChars]
    unfold mkDateChars stripOrdinals
    have hsp : ∀ c ∈ wkChars w ++ [' '], c.isDigit = false := by
      intro c hc
      rcases List.mem_append.mp hc with h | h
      · exact hwnd c h
      · simp only [List.mem_singleton] at h
        subst h
        rfl
    have hassoc :
        wkChars w ++ ' ' :: (digitsOf (dd.val + 1) ++ (sufChars sf ++ ' ' :: monChars m)) =
          (wkChars w ++ [' ']) ++ (digitsOf (dd.val + 1) ++ (sufChars sf ++ ' ' :: monChars m)) := by
      simp
    rw [hassoc, stripAux_nodigit _ _ hsp, hstrip]
    simp
  · simp only [strptimeDateCore, matchWeekday w, wsPlus_space, hdw, hday, hmon]
    simp

/-- `strptime` of `f"{cs} {y}"` for a four-digit year, once the `%A %d %B`
part is known to read `(d, M)`. -/
lemma strptimeDate_of_core (cs : List Char) (d M y : Nat)
    (hc : strptimeDateCore cs = some (d, M)) (h1 : 1000 ≤ y) (h2 : y ≤ 9999) :
    strptimeDate cs y = if d ≤ daysInMonth y M then some (Date.mk y M d) else none := by
  simp only [strptimeDate, hc, Bool.and_eq_true, decide_eq_true_eq]
  by_cases hd : d ≤ daysInMonth y M
  · rw [if_pos ⟨⟨h1, h2⟩, hd⟩, if_pos hd]
  · rw [if_neg (fun h => hd h.2), if_neg hd]

/-- Full characterisation of `parse_pcc_date` on well-formed heading texts
`"<Weekday> <Day><ordinal> <Month>"` (day 1-31), for reference years with
`1000 ≤ year` and `year + 1 ≤ 9999`: the ordinal is stripped; if the day
exists in the month in the reference year, the date resolves in the
reference year, except that a result more than 60 days before `ref` is
re-parsed under `year + 1` (succeeding exactly when the day exists in that
month of `year + 1`); a day absent from the month fails. -/
lemma parse_mkStr (ref : Date) (w : Fin 7) (dd : Fin 31) (sf : Fin 4) (m : Fin 12)
    (h1 : 1000 ≤ ref.year) (h2 : ref.year + 1 ≤ 9999) :
    parse_pcc_date ref (mkStr w (dd.val + 1) sf m) =
      if dd.val + 1 ≤ daysInMonth ref.year (m.val + 1) then
        if (daysOf ref : Int) - (daysOf (Date.mk ref.year (m.val + 1) (dd.val + 1)) : Int) > 60 then
          if dd.val + 1 ≤ daysInMonth (ref.year + 1) (m.val + 1) then
            some (Date.mk (ref.year + 1) (m.val + 1) (dd.val + 1))
          else none
        else some (Date.mk ref.year (m.val + 1) (dd.val + 1))
      else none := by
  obtain ⟨hclean, hcore⟩ := dateCore w dd sf m
  have hdata : (mkStr w (dd.val + 1) sf m).data = mkDateChars w (dd.val + 1) sf m := rfl
  have hne : mkDateChars w (dd.val + 1) sf m ≠ [] := by
    obtain ⟨hwne, -, -⟩ := wkFacts w
    unfold mkDateChars
    simp [hwne]
  unfold parse_pcc_date
  simp only [hdata, if_neg hne, hclean]
  rw [strptimeDate_of_core _ _ _ _ hcore h1 (by omega),
    strptimeDate_of_core _ _ _ _ hcore (by omega) h2]
  by_cases hd : dd.val + 1 ≤ daysInMonth ref.year (m.val + 1)
  · rw [if_pos hd, if_pos hd]
  · rw [if_neg hd, if_neg hd]

/-! ## Helper lemmas about the extractor -/

/-- A node that is not a heading whose text parses to a date: either not a
heading tag at all, or a heading whose text fails `parse_pcc_date`. -/
def headingFails (ref : Date) : Node → Prop
  | Node.textNode _ => True
  | Node.tag name classes content _ =>
    name = "div" ∧ "heading" ∈ classes → parse_pcc_date ref (pyStripS content) = none

/-- Scanning from the `NoDate` state over a prefix containing no
successfully parsed heading emits nothing and ends in `NoDate`. -/
lemma stepChildren_skip_prefix (ref : Date) (film : String) :
    ∀ (pre post : List Node) (acc : List Screening),
      (∀ n ∈ pre, headingFails ref n) →
      stepChildren ref film (pre ++ post) none acc = stepChildren ref film post none acc
  | [], _, _, _ => rfl
  | n :: pre, post, acc, h => by
    have hn : headingFails ref n := h n (List.mem_cons_self n pre)
    have hpre : ∀ n' ∈ pre, headingFails ref n' :=
      fun n' hm => h n' (List.mem_cons_of_mem n hm)
    cases n with
    | textNode s =>
      show stepChildren ref film (pre ++ post) none acc = _
      exact stepChildren_skip_prefix ref film pre post acc hpre
    | tag name classes content ts =>
      by_cases hhd : name = "div" ∧ "heading" ∈ classes
      · have hparse : parse_pcc_date ref (pyStripS content) = none := hn hhd
        simp only [List.cons_append, stepChildren, if_pos hhd, hparse]
        exact stepChildren_skip_prefix ref film pre post acc hpre
      · by_cases hli : name = "li"
        · simp only [List.cons_append, stepChildren, if_neg hhd, if_pos hli]
          exact stepChildren_skip_prefix ref film pre post acc hpre
        · simp only [List.cons_append, stepChildren, if_neg hhd, if_neg hli]
          exact stepChildren_skip_prefix ref film pre post acc hpre

/-- A film container with no usable title or no performance list yields no
screenings, no processed increment, and one skipped increment. -/
lemma processFilm_skipped (ref : Date) (c : FilmContainer)
    (h : effTitle c = none ∨ c.perfList = none) :
    (processFilm ref c).screenings = [] ∧ (processFilm ref c).processed = 0 ∧
      (processFilm ref c).skipped = 1 := by
  rcases h with h | h
  · simp [processFilm, h]
  · cases ht : effTitle c <;> simp [processFilm, ht, h]

/-- Inserting a titleless or listless container anywhere in the container
sequence leaves screenings and the processed count unchanged and adds one
to the skipped count. -/
lemma processContainers_insert_skipped (ref : Date) (c : FilmContainer)
    (h : effTitle c = none ∨ c.perfList = none) :
    ∀ (pre post : List FilmContainer),
      (processContainers ref (pre ++ c :: post)).screenings =
        (processContainers ref (pre ++ post)).screenings ∧
      (processContainers ref (pre ++ c :: post)).processed =
        (processContainers ref (pre ++ post)).processed ∧
      (processContainers ref (pre ++ c :: post)).skipped =
        (processContainers ref (pre ++ post)).skipped + 1
  | [], post => by
    obtain ⟨h1, h2, h3⟩ := processFilm_skipped ref c h
    refine ⟨?_, ?_, ?_⟩
    · show (processFilm ref c).screenings ++ (processContainers ref post).screenings =
        (processContainers ref post).screenings
      rw [h1]
      rfl
    · show (processFilm ref c).processed + (processContainers ref post).processed =
        (processContainers ref post).processed
      rw [h2]
      omega
    · show (processFilm ref c).skipped + (processContainers ref post).skipped =
        (processContainers ref post).skipped + 1
      rw [h3]
      omega
  | a :: pre, post => by
    obtain ⟨ih1, ih2, ih3⟩ := processContainers_insert_skipped ref c h pre post
    refine ⟨?_, ?_, ?_⟩
    · show (processFilm ref a).screenings ++ (processContainers ref (pre ++ c :: post)).screenings =
        (processFilm ref a).screenings ++ (processContainers ref (pre ++ post)).screenings
      rw [ih1]
    · show (processFilm ref a).processed + (processContainers ref (pre ++ c :: post)).processed =
        (processFilm ref a).processed + (processContainers ref (pre ++ post)).processed
      rw [ih2]
    · show (processFilm ref a).skipped + (processContainers ref (pre ++ c :: post)).skipped =
        (processFilm ref a).skipped + (processContainers ref (pre ++ post)).skipped + 1
      rw [ih3]
      omega

/-! ## Claim theorems -/

/-- C1, counterexample: with reference date 2025-04-01, a film block whose
performance list is a successfully parsed heading ("Wednesday 2nd April" →
2025-04-02), then a failing heading ("garbage"), then a time item
("1:00 pm"), produces NO screening at all: the failed heading overwrote the
established date with `None`, so the time item was not paired with the
prior date 2025-04-02 — contradicting the claim that the prior valid date
is kept. -/
theorem C1_counterexample :
    parse_pcc_date (Date.mk 2025 4 1) "Wednesday 2nd April" = some (Date.mk 2025 4 2) ∧
    parse_pcc_date (Date.mk 2025 4 1) "garbage" = none ∧
    (scrape_pcc_run (Date.mk 2025 4 1) (FetchOutcome.ok
      [FilmContainer.mk ["jacro-event", "movie-tabs", "row"] (some "Film C")
        (some [Node.tag "div" ["heading"] "Wednesday 2nd April" none,
               Node.tag "div" ["heading"] "garbage" none,
               Node.tag "li" [] "" (some "1:00 pm")])])).outcome =
      PyOutcome.ok [] := by
  refine ⟨by decide, by decide, by decide⟩

/-- C1, amended: a heading fragment whose text fails to parse OVERWRITES
the current date with `NoDate` (Python `None`) — even when a valid date was
already established — so subsequent time items are discarded until the next
successfully parsed heading, rather than being paired with the prior
date. -/
theorem C1_amended_heading_failure_clears_date (ref : Date) (film : String)
    (classes : List String) (content : String) (ts : Option String)
    (rest : List Node) (st : Option Date) (acc : List Screening)
    (hmem : "heading" ∈ classes)
    (hfail : parse_pcc_date ref (pyStripS content) = none) :
    stepChildren ref film (Node.tag "div" classes content ts :: rest) st acc =
      stepChildren ref film rest none acc := by
  simp [stepChildren, hfail, hmem]

/-- Witness for C1 (amended): after the failing heading "garbage" the state
is cleared, so the following "1:00 pm" item yields nothing even though the
date 2025-04-02 was established. -/
theorem C1_witness :
    stepChildren (Date.mk 2025 4 1) "Film C"
      [Node.tag "div" ["heading"] "garbage" none, Node.tag "li" [] "" (some "1:00 pm")]
      (some (Date.mk 2025 4 2)) [] = [] := by
  rw [C1_amended_heading_failure_clears_date (Date.mk 2025 4 1) "Film C" ["heading"]
    "garbage" none _ _ _ (by decide) (by decide)]
  decide

/-- C2 (code bug): on the network-error path `scrape_pcc` logs
`NETWORK ERROR` but then the final summary `logging.info` f-string reads
`processed_count`/`skipped_count`, locals that are only assigned after the
fetch; evaluating it raises `UnboundLocalError`, which escapes the
function — the run crashes instead of returning the empty list. -/
theorem C2_network_error_uncaught :
    (scrape_pcc_run (Date.mk 2025 6 15) FetchOutcome.networkError).outcome =
      PyOutcome.exn "UnboundLocalError" ∧
    (LogLevel.error, VENUE ++ ": NETWORK ERROR") ∈
      (scrape_pcc_run (Date.mk 2025 6 15) FetchOutcome.networkError).logs := by
  refine ⟨by decide, by decide⟩

/-- C3, counterexample: "Thursday 3rd April" (a well-formed heading: April 3
of the reference year 2025 really is a Thursday) parsed at reference date
2025-12-01 resolves via the 60-day rule to 2026-04-03 — whose weekday is
Friday (4), not the Thursday (3) named in the text: the returned date's
weekday does not match the input component. -/
theorem C3_counterexample :
    mkStr 3 3 2 3 = "Thursday 3rd April" ∧
    weekdayOf (Date.mk 2025 4 3) = 3 ∧
    parse_pcc_date (Date.mk 2025 12 1) "Thursday 3rd April" = some (Date.mk 2026 4 3) ∧
    weekdayOf (Date.mk 2026 4 3) = 4 := by
  refine ⟨by decide, by decide, by decide, by decide⟩

/-- C3, amended: on a well-formed `"<Weekday> <Day><ordinal> <Month>"`
heading the ordinal is stripped and — provided the reference-year
resolution is not more than 60 days in the past, and the named weekday
(index `w`, Monday = 0) is the true weekday of that day and month in the
reference year — the result is the reference-year date whose day-of-month,
month, and weekday all match the input components.  (Under the 60-day
next-year fallback the day and month still match but the weekday need
not; see the counterexample.) -/
theorem C3_amended_components_match (ref : Date) (w : Fin 7) (dd : Fin 31)
    (sf : Fin 4) (m : Fin 12)
    (hy1 : 1000 ≤ ref.year) (hy2 : ref.year + 1 ≤ 9999)
    (hday : dd.val + 1 ≤ daysInMonth ref.year (m.val + 1))
    (hrecent : ¬((daysOf ref : Int) - (daysOf (Date.mk ref.year (m.val + 1) (dd.val + 1)) : Int) > 60))
    (hwk : weekdayOf (Date.mk ref.year (m.val + 1) (dd.val + 1)) = w.val) :
    parse_pcc_date ref (mkStr w (dd.val + 1) sf m) =
      some (Date.mk ref.year (m.val + 1) (dd.val + 1)) ∧
    weekdayOf (Date.mk ref.year (m.val + 1) (dd.val + 1)) = w.val := by
  refine ⟨?_, hwk⟩
  rw [parse_mkStr ref w dd sf m hy1 hy2, if_pos hday, if_neg hrecent]

/-- Witness for C3 (amended): "Wednesday 2nd April" at reference date
2025-04-01 resolves to 2025-04-02, a Wednesday. -/
theorem C3_witness :
    parse_pcc_date (Date.mk 2025 4 1) (mkStr 2 2 1 3) = some (Date.mk 2025 4 2) ∧
    weekdayOf (Date.mk 2025 4 2) = 2 :=
  C3_amended_components_match (Date.mk 2025 4 1) 2 1 1 3
    (by decide) (by decide) (by decide) (by decide) (by decide)

/-- C4, counterexample: "Thursday 29th February" at reference date
2024-12-01 parses successfully under the reference year 2024 (a leap year;
2024-02-29 is a Thursday) and lies more than 60 days in the past, but the
code returns `None` — not the claimed same-day/month date in year 2025,
because `"... 29 February 2025"` raises `ValueError` (2025 is not leap). -/
theorem C4_counterexample :
    mkStr 3 29 3 1 = "Thursday 29th February" ∧
    strptimeDate (stripOrdinals (pyStrip "Thursday 29th February".data)) 2024 =
      some (Date.mk 2024 2 29) ∧
    (daysOf (Date.mk 2024 12 1) : Int) - (daysOf (Date.mk 2024 2 29) : Int) > 60 ∧
    parse_pcc_date (Date.mk 2024 12 1) "Thursday 29th February" = none := by
  refine ⟨by decide, by decide, by decide, by decide⟩

/-- C4, amended: full year-resolution policy on well-formed headings.  If
the day exists in the named month of the reference year, the heading
resolves to the reference-year date, except that a result more than 60
days before the reference instant is re-parsed under reference year + 1:
that yields the same day and month in year + 1 when that date exists, and
ParseFailure when it does not (e.g. Feb 29 before a non-leap year).  A day
absent from the month in the reference year yields ParseFailure (year + 1
is not attempted). -/
theorem C4_amended_year_fallback (ref : Date) (w : Fin 7) (dd : Fin 31)
    (sf : Fin 4) (m : Fin 12)
    (hy1 : 1000 ≤ ref.year) (hy2 : ref.year + 1 ≤ 9999) :
    parse_pcc_date ref (mkStr w (dd.val + 1) sf m) =
      if dd.val + 1 ≤ daysInMonth ref.year (m.val + 1) then
        if (daysOf ref : Int) - (daysOf (Date.mk ref.year (m.val + 1) (dd.val + 1)) : Int) > 60 then
          if dd.val + 1 ≤ daysInMonth (ref.year + 1) (m.val + 1) then
            some (Date.mk (ref.year + 1) (m.val + 1) (dd.val + 1))
          else none
        else some (Date.mk ref.year (m.val + 1) (dd.val + 1))
      else none :=
  parse_mkStr ref w dd sf m hy1 hy2

/-- Witness for C4 (amended): the Feb-29 instance — parses in 2024, too far
in the past, fails under 2025, so the whole parse yields `none`. -/
theorem C4_witness :
    parse_pcc_date (Date.mk 2024 12 1) (mkStr 3 29 3 1) = none :=
  (C4_amended_year_fallback (Date.mk 2024 12 1) 3 28 3 1 (by decide) (by decide)).trans
    (by decide)

/-- C5: every well-formed `"<H>:<MM> <am|pm>"` string (hour 1-12, minute
0-59, meridiem in any of the four casings) is converted to the zero-padded
24-hour rendering of the denoted time; in particular midnight, noon, and
"1:05 pm" map to "00:00", "12:00" and "13:05". -/
theorem C5_time_normalization :
    (∀ h : Fin 12, ∀ mi : Fin 60, ∀ ap : Fin 4,
      parse_pcc_time (mkTime (h.val + 1) mi.val ap) =
        some (expectedTime (h.val + 1) mi.val (apIsPM ap))) ∧
    parse_pcc_time "12:00 am" = some "00:00" ∧
    parse_pcc_time "12:00 pm" = some "12:00" ∧
    parse_pcc_time "1:05 pm" = some "13:05" := by
  refine ⟨by decide, by decide, by decide, by decide⟩

/-- C6: the malformed inputs the claim enumerates — empty string, missing
meridiem, out-of-range hour 13 with a meridiem, wrong separators,
non-numeric text, and their date-side analogues (empty, truncated, day out
of range, wrong shape, unknown weekday) — all yield ParseFailure (`none`).
Freedom from uncaught exceptions is modelled by both normalizers being
total Lean functions into `Option`, mirroring the `except` handlers that
convert any `ValueError` to `None`. -/
theorem C6_malformed_inputs_fail_gracefully :
    parse_pcc_time "" = none ∧
    parse_pcc_time "13:00" = none ∧
    parse_pcc_time "13:00 pm" = none ∧
    parse_pcc_time "12.00 pm" = none ∧
    parse_pcc_time "noon" = none ∧
    parse_pcc_time "12:60 pm" = none ∧
    parse_pcc_date (Date.mk 2025 6 15) "" = none ∧
    parse_pcc_date (Date.mk 2025 6 15) "Thursday 3rd" = none ∧
    parse_pcc_date (Date.mk 2025 6 15) "3rd April" = none ∧
    parse_pcc_date (Date.mk 2025 6 15) "Thursday 32nd April" = none ∧
    parse_pcc_date (Date.mk 2025 6 15) "12:00 pm" = none ∧
    parse_pcc_date (Date.mk 2025 6 15) "Blursday 3rd April" = none := by
  refine ⟨by decide, by decide, by decide, by decide, by decide, by decide,
    by decide, by decide, by decide, by decide, by decide, by decide⟩

/-- C7: each film block is scanned starting in the `NoDate` state, and a
prefix of its performance list containing no successfully parsed heading —
in particular any time items in it — contributes no screening: the film's
screenings are exactly those of the remaining children scanned from
`NoDate`.  So a time item before any valid heading is never emitted, and
never inherits a previous film block's date. -/
theorem C7_no_record_before_valid_heading (ref : Date) (c : FilmContainer)
    (title : String) (pre post : List Node)
    (htitle : effTitle c = some title)
    (hperf : c.perfList = some (pre ++ post))
    (hpre : ∀ n ∈ pre, headingFails ref n) :
    (processFilm ref c).screenings = stepChildren ref title post none [] := by
  simp only [processFilm, htitle, hperf]
  exact stepChildren_skip_prefix ref title pre post [] hpre

/-- Witness for C7: a film block whose list is a lone time item (no heading
at all) yields no screenings. -/
theorem C7_witness :
    (processFilm (Date.mk 2025 4 1)
      (FilmContainer.mk ["jacro-event", "movie-tabs", "row"] (some "Film D")
        (some [Node.tag "li" [] "" (some "7:00 pm")]))).screenings =
      stepChildren (Date.mk 2025 4 1) "Film D" [] none [] := by
  refine C7_no_record_before_valid_heading (Date.mk 2025 4 1) _ "Film D"
    [Node.tag "li" [] "" (some "7:00 pm")] [] (by decide) (by decide) ?_
  intro n hn
  rw [List.mem_singleton.mp hn]
  simp [headingFails]

/-- C8: a film container with no extractable title or with no showings
list contributes zero records and exactly one skipped increment, and its
presence anywhere among the containers changes neither the screenings nor
the processed count extracted from its siblings. -/
theorem C8_skipped_film_isolated (ref : Date) (pre post : List FilmContainer)
    (c : FilmContainer) (h : effTitle c = none ∨ c.perfList = none) :
    (processContainers ref (pre ++ c :: post)).screenings =
      (processContainers ref (pre ++ post)).screenings ∧
    (processContainers ref (pre ++ c :: post)).processed =
      (processContainers ref (pre ++ post)).processed ∧
    (processContainers ref (pre ++ c :: post)).skipped =
      (processContainers ref (pre ++ post)).skipped + 1 :=
  processContainers_insert_skipped ref c h pre post

/-- Witness for C8: a container with a title but no showings list, placed
between two siblings, leaves their screenings and processed count intact
and bumps skipped by one. -/
theorem C8_witness :
    (processContainers (Date.mk 2025 4 1)
      ([FilmContainer.mk ["row"] (some "Film A")
          (some [Node.tag "div" ["heading"] "Wednesday 2nd April" none,
                 Node.tag "li" [] "" (some "1:00 pm")])] ++
        FilmContainer.mk ["row"] (some "Film B") none ::
          [FilmContainer.mk ["row"] (some "Film E") (some [])])).screenings =
      (processContainers (Date.mk 2025 4 1)
        ([FilmContainer.mk ["row"] (some "Film A")
            (some [Node.tag "div" ["heading"] "Wednesday 2nd April" none,
                   Node.tag "li" [] "" (some "1:00 pm")])] ++
          [FilmContainer.mk ["row"] (some "Film E") (some [])])).screenings ∧
    (processContainers (Date.mk 2025 4 1)
      ([FilmContainer.mk ["row"] (some "Film A")
          (some [Node.tag "div" ["heading"] "Wednesday 2nd April" none,
                 Node.tag "li" [] "" (some "1:00 pm")])] ++
        FilmContainer.mk ["row"] (some "Film B") none ::
          [FilmContainer.mk ["row"] (some "Film E") (some [])])).processed =
      (processContainers (Date.mk 2025 4 1)
        ([FilmContainer.mk ["row"] (some "Film A")
            (some [Node.tag "div" ["heading"] "Wednesday 2nd April" none,
                   Node.tag "li" [] "" (some "1:00 pm")])] ++
          [FilmContainer.mk ["row"] (some "Film E") (some [])])).processed ∧
    (processContainers (Date.mk 2025 4 1)
      ([FilmContainer.mk ["row"] (some "Film A")
          (some [Node.tag "div" ["heading"] "Wednesday 2nd April" none,
                 Node.tag "li" [] "" (some "1:00 pm")])] ++
        FilmContainer.mk ["row"] (some "Film B") none ::
          [FilmContainer.mk ["row"] (some "Film E") (some [])])).skipped =
      (processContainers (Date.mk 2025 4 1)
        ([FilmContainer.mk ["row"] (some "Film A")
            (some [Node.tag "div" ["heading"] "Wednesday 2nd April" none,
                   Node.tag "li" [] "" (some "1:00 pm")])] ++
          [FilmContainer.mk ["row"] (some "Film E") (some [])])).skipped + 1 :=
  C8_skipped_film_isolated (Date.mk 2025 4 1) _ _ _ (Or.inr rfl)

/-- C9: a document in which no fragment carries all three class markers
"jacro-event", "movie-tabs", "row" makes the run return the empty list
(a normal return, not an exception) after logging the structural error at
error level. -/
theorem C9_structural_error_empty (ref : Date) (doc : List FilmContainer)
    (h : doc.filter hasMarkers = []) :
    (scrape_pcc_run ref (FetchOutcome.ok doc)).outcome = PyOutcome.ok [] ∧
    (LogLevel.error, VENUE ++ ": Could not find film containers. Check website structure.") ∈
      (scrape_pcc_run ref (FetchOutcome.ok doc)).logs := by
  simp [scrape_pcc_run, h]

/-- Witness for C9: a document whose only fragment lacks two of the three
markers. -/
theorem C9_witness :
    (scrape_pcc_run (Date.mk 2025 4 1)
      (FetchOutcome.ok [FilmContainer.mk ["row"] (some "X") none])).outcome =
      PyOutcome.ok [] ∧
    (LogLevel.error, VENUE ++ ": Could not find film containers. Check website structure.") ∈
      (scrape_pcc_run (Date.mk 2025 4 1)
        (FetchOutcome.ok [FilmContainer.mk ["row"] (some "X") none])).logs :=
  C9_structural_error_empty (Date.mk 2025 4 1) _ (by decide)

/-- C10: a list-item fragment containing no `span` with class marker
"time" emits no record, leaves the current-date state exactly as it was,
and scanning continues with the following items. -/
theorem C10_li_without_time_span (ref : Date) (film : String)
    (classes : List String) (content : String) (rest : List Node)
    (st : Option Date) (acc : List Screening) :
    stepChildren ref film (Node.tag "li" classes content none :: rest) st acc =
      stepChildren ref film rest st acc := by
  cases st <;> rfl

end Cinebot
